import Mathlib

/-!
# Ntando Computer — verification of the deployment-dashboard server

Shallow embedding of the Express/MongoDB server of this repository
(`src/unnamed/part_000`, the main `server.js`, and the simplified
`server.js` variant embedded in `src/Dockerfile`, lines 421-704), and
proofs about the deployment lifecycle, the HTTP handlers and the auth
responses.

Modelling conventions:
* MongoDB collections are Lean lists; `findOne` is `List.find?`,
  `find().sort().limit()` is `filter` + `mergeSort` + `take`.
* Database / filesystem / provider failures are injected explicitly as
  `Bool` flags or `Except` results, since the JS code observes them only
  as thrown exceptions.
* `ObjectId`s are `Nat`, timestamps are `Nat`, the bcrypt hash and the
  verification oracle are opaque parameters.
* Fields of the schemas never read by the verified properties
  (`branch`, `buildCommand`, `outputDir`, `sslEnabled`, `metrics`,
  `updatedAt`, `customDomain`) are omitted from the record types.
-/

/-- The `status` enum of `deploymentSchema`
(`src/unnamed/part_000` line 104): `building`, `deploying`, `live`, `error`. -/
inductive Status : Type
  | building
  | deploying
  | live
  | error
deriving DecidableEq

/-- Position of a status in the forward order
`building → deploying → {live | error}` (spec §4.1); the two terminal
states share the maximal position. -/
def Status.rank : Status → Nat
  | Status.building => 0
  | Status.deploying => 1
  | Status.live => 2
  | Status.error => 2

/-- A document of the `deployments` collection
(`deploymentSchema`, `src/unnamed/part_000` lines 96-116). -/
structure Deployment : Type where
  id : Nat
  userId : Nat
  projectName : String
  domain : String
  status : Status
  renderServiceId : Option String
  deploymentUrl : Option String
  createdAt : Nat
deriving DecidableEq

/-- The record built by `new Deployment({...})` in both deploy routes:
all fields from the request, `status: 'building'`, no service id or URL
yet (`src/unnamed/part_000` lines 304-312; `src/Dockerfile` lines
629-637). -/
def newDeployment (id userId : Nat) (projectName domain : String)
    (now : Nat) : Deployment :=
  { id := id, userId := userId, projectName := projectName,
    domain := domain, status := Status.building,
    renderServiceId := none, deploymentUrl := none, createdAt := now }

/-- `checkDomainAvailability` (`src/unnamed/part_000` lines 138-146):
`Deployment.findOne({ domain })`; returns `true` when no record has the
domain. A thrown database error (`dbError`) is caught inside the
function and turned into `false`. -/
def checkDomainAvailability (db : List Deployment) (dbError : Bool)
    (domain : String) : Bool :=
  if dbError then false
  else (db.find? (fun d => d.domain == domain)).isNone

/-- `deployment.save()` on a fresh record. `deploymentSchema` declares
`domain: { unique: true }` (`src/unnamed/part_000` line 99,
`src/Dockerfile` line 513), so the storage layer refuses an insert
whose domain an existing document already holds; `saveError` injects
any other database failure. Both surface to the caller as a thrown
exception, here `Except.error`. -/
def saveNewDeployment (db : List Deployment) (saveError : Bool)
    (d : Deployment) : Except Unit (List Deployment) :=
  if saveError then Except.error ()
  else if db.any (fun r => r.domain == d.domain) then Except.error ()
  else Except.ok (db ++ [d])

/-- Outcome of a deploy route: HTTP status code, the collection after
the request, and the record the route persisted (if any). -/
structure DeployResponse : Type where
  httpStatus : Nat
  db : List Deployment
  created : Option Deployment
deriving DecidableEq

/-- `app.post('/api/deploy')`, main variant (`src/unnamed/part_000`
lines 289-329): check domain availability (`400 Domain not available`
when unavailable), then create and save the `building` record; any
exception in the `try` block yields `500 Deployment failed`. -/
def deployHandler (db : List Deployment) (dbFindError saveError : Bool)
    (userId newId now : Nat) (projectName domain : String) : DeployResponse :=
  if checkDomainAvailability db dbFindError domain then
    match saveNewDeployment db saveError
        (newDeployment newId userId projectName domain now) with
    | Except.error _ => ⟨500, db, none⟩
    | Except.ok db2 =>
        ⟨200, db2, some (newDeployment newId userId projectName domain now)⟩
  else ⟨400, db, none⟩

/-- `app.post('/api/deploy')`, simplified variant (`src/Dockerfile`
lines 620-658): no availability check at all — the record is created
and saved directly; a thrown save (including the unique-index refusal
of a duplicate domain) hits the `catch` and yields `500`. -/
def simpleDeployHandler (db : List Deployment) (saveError : Bool)
    (userId newId now : Nat) (projectName domain : String) : DeployResponse :=
  match saveNewDeployment db saveError
      (newDeployment newId userId projectName domain now) with
  | Except.error _ => ⟨500, db, none⟩
  | Except.ok db2 =>
      ⟨200, db2, some (newDeployment newId userId projectName domain now)⟩

/-- The `setTimeout` callback of the simplified variant
(`src/Dockerfile` lines 642-646): after the fixed 15-second delay the
record is set to `live` with `deploymentUrl = https://<domain>`. -/
def simulateDeployment (d : Deployment) : Deployment :=
  { d with status := Status.live,
           deploymentUrl := some ("https://" ++ d.domain) }

/-- Does the character list start with the pattern? (helper for
`strIncludes`). -/
def hasPre : List Char → List Char → Bool
  | [], _ => true
  | _ :: _, [] => false
  | p :: ps, c :: cs => p == c && hasPre ps cs

/-- Does the character list contain the pattern as a contiguous
sublist? (helper for `strIncludes`). -/
def hasSub (pat : List Char) : List Char → Bool
  | [] => pat.isEmpty
  | c :: rest => hasPre pat (c :: rest) || hasSub pat rest

/-- JS `String.prototype.includes`, used for
`deployment.domain.includes('ntl.cloud')`
(`src/unnamed/part_000` line 354). -/
def strIncludes (s pat : String) : Bool :=
  hasSub pat.toList s.toList

/-- The fields of the Render service object the server reads:
`renderService.id` and `renderService.url`
(`src/unnamed/part_000` lines 349-350). -/
structure RenderService : Type where
  id : String
  url : Option String
deriving DecidableEq

/-- One poll of `renderClient.getServiceStatus` inside
`monitorDeployment`: either a service object (its `status` string and
`url`), or a thrown exception. -/
inductive PollResult : Type
  | ok (status : String) (url : Option String)
  | exn
deriving DecidableEq

/-- `const maxAttempts = 30` (`src/unnamed/part_000` line 425). -/
def maxAttempts : Nat := 30

/-- What the `checkStatus` polling loop ultimately does to the record. -/
inductive MonitorOutcome : Type
  | wroteLive (url : Option String)  -- status := live, deploymentUrl := url
  | wroteError                       -- status := error
  | stalled    -- loop ended without any write (record left as it was)
  | pending    -- supplied poll results exhausted with the loop still scheduled
deriving DecidableEq

/-- The `checkStatus` closure of `monitorDeployment`
(`src/unnamed/part_000` lines 428-460), consuming one `PollResult` per
invocation. `live`/`ready` and `failed`/`error` provider statuses are
terminal; a non-terminal status reschedules while `attempts <
maxAttempts` and otherwise forces `error`; a thrown poll reschedules
while `attempts < maxAttempts` and otherwise does nothing (the `catch`
branch has no `else`). -/
def checkStatus (attempts : Nat) : List PollResult → MonitorOutcome
  | [] => MonitorOutcome.pending
  | PollResult.ok s u :: rest =>
      if s == "live" || s == "ready" then MonitorOutcome.wroteLive u
      else if s == "failed" || s == "error" then MonitorOutcome.wroteError
      else if attempts < maxAttempts then checkStatus (attempts + 1) rest
      else MonitorOutcome.wroteError
  | PollResult.exn :: rest =>
      if attempts < maxAttempts then checkStatus (attempts + 1) rest
      else MonitorOutcome.stalled

/-- `monitorDeployment` (`src/unnamed/part_000` lines 424-463): the
record after the polling loop finishes, given the sequence of poll
results. -/
def monitorDeployment (d : Deployment) (polls : List PollResult) : Deployment :=
  match checkStatus 0 polls with
  | MonitorOutcome.wroteLive u =>
      { d with status := Status.live, deploymentUrl := u }
  | MonitorOutcome.wroteError => { d with status := Status.error }
  | MonitorOutcome.stalled => d
  | MonitorOutcome.pending => d

/-- `processDeployment` (`src/unnamed/part_000` lines 331-366),
instrumented: the final record, paired with the ordered list of
`status` values the function (and its monitor) writes. Steps: set
`deploying`; packaging (`processFileUpload`) may throw;
`createStaticSite` may throw; record the service id and URL;
`addCustomDomain` (only when the domain does not include `ntl.cloud`)
may throw; any throw is caught and writes `error`; otherwise the
monitor runs. -/
def processDeploymentT (d : Deployment) (packagingError : Bool)
    (createSiteResult : Except Unit RenderService) (addDomainError : Bool)
    (polls : List PollResult) : Deployment × List Status :=
  let d1 := { d with status := Status.deploying }
  if packagingError then
    ({ d1 with status := Status.error }, [Status.deploying, Status.error])
  else
    match createSiteResult with
    | Except.error _ =>
        ({ d1 with status := Status.error }, [Status.deploying, Status.error])
    | Except.ok svc =>
        let d2 := { d1 with renderServiceId := some svc.id,
                            deploymentUrl := svc.url }
        if (d2.domain != "" && !(strIncludes d2.domain "ntl.cloud"))
            && addDomainError then
          ({ d2 with status := Status.error }, [Status.deploying, Status.error])
        else
          (monitorDeployment d2 polls,
           Status.deploying ::
             (match checkStatus 0 polls with
              | MonitorOutcome.wroteLive _ => [Status.live]
              | MonitorOutcome.wroteError => [Status.error]
              | MonitorOutcome.stalled => []
              | MonitorOutcome.pending => []))

/-- `processDeployment` proper: just the final record. -/
def processDeployment (d : Deployment) (packagingError : Bool)
    (createSiteResult : Except Unit RenderService) (addDomainError : Bool)
    (polls : List PollResult) : Deployment :=
  (processDeploymentT d packagingError createSiteResult addDomainError polls).1

/-- The statuses a record of the main variant holds over its life: the
`building` it is created with, followed by every status written by
`processDeployment` / `monitorDeployment`. -/
def lifecycleTrace (d : Deployment) (packagingError : Bool)
    (createSiteResult : Except Unit RenderService) (addDomainError : Bool)
    (polls : List PollResult) : List Status :=
  Status.building ::
    (processDeploymentT d packagingError createSiteResult addDomainError polls).2

/-- The statuses a record of the simplified variant holds: `building`
at creation, then whatever the fixed-delay callback writes. -/
def simpleLifecycleTrace (d : Deployment) : List Status :=
  [Status.building, (simulateDeployment d).status]

/-- The whole deploy request of the main variant, background task
included: run the route, then (when a record was persisted) let the
fire-and-forget `processDeployment(deployment, req.files)` call
(`src/unnamed/part_000` line 317) rewrite that record. The HTTP status
is the one the route already sent. -/
def deployFlow (db : List Deployment) (dbFindError saveError : Bool)
    (userId newId now : Nat) (projectName domain : String)
    (packagingError : Bool) (createSiteResult : Except Unit RenderService)
    (addDomainError : Bool) (polls : List PollResult) :
    Nat × List Deployment :=
  let resp := deployHandler db dbFindError saveError userId newId now
    projectName domain
  match resp.created with
  | none => (resp.httpStatus, resp.db)
  | some d =>
      (resp.httpStatus,
       resp.db.map (fun r =>
         if r.id == d.id then
           processDeployment r packagingError createSiteResult addDomainError
             polls
         else r))

/-- `app.get('/api/deployments')` (`src/unnamed/part_000` lines
471-482, identical in `src/Dockerfile` lines 661-672):
`Deployment.find({ userId }).sort({ createdAt: -1 }).limit(10)`. -/
def getDeployments (db : List Deployment) (callerId : Nat) : List Deployment :=
  (((db.filter (fun d => d.userId == callerId)).mergeSort
      (fun a b => decide (b.createdAt ≤ a.createdAt))).take 10)

/-- `app.delete('/api/deployments/:id')` (`src/unnamed/part_000` lines
504-527): `findOne({ _id, userId })`; absent → `404`, nothing touched;
otherwise the upload directory is removed (a filesystem failure
`fsError` throws into the `catch`, `500`, before the delete) and
`findByIdAndDelete` removes the record, `200`. -/
def deleteHandler (db : List Deployment) (fsError : Bool)
    (callerId delId : Nat) : Nat × List Deployment :=
  match db.find? (fun d => d.id == delId && d.userId == callerId) with
  | none => (404, db)
  | some _ =>
      if fsError then (500, db)
      else (200, db.filter (fun d => !(d.id == delId)))

/-- A document of the `users` collection (`userSchema`,
`src/unnamed/part_000` lines 88-94); `password` holds the bcrypt hash. -/
structure User : Type where
  id : Nat
  email : String
  password : String
  plan : String
deriving DecidableEq

/-- The user object the auth routes put in the response body:
`{ id: user._id, email: user.email, plan: user.plan }`
(`src/unnamed/part_000` lines 253 and 280) — and nothing else. -/
structure UserView : Type where
  id : Nat
  email : String
  plan : String
deriving DecidableEq

/-- Outcome of an auth route: HTTP status and the user object of the
body (absent on failure). -/
structure AuthResponse : Type where
  httpStatus : Nat
  user : Option UserView
deriving DecidableEq

/-- `app.post('/api/auth/register')` (`src/unnamed/part_000` lines
231-259): missing (falsy, i.e. empty) email or password → `400`;
existing email → `400`; otherwise store the user with the bcrypt hash
(`hashed`, an oracle input) and plan `free`, and answer `201` with the
view. -/
def registerHandler (users : List User) (email password hashed : String)
    (newId : Nat) : AuthResponse × List User :=
  if email.isEmpty || password.isEmpty then (⟨400, none⟩, users)
  else if (users.find? (fun u => u.email == email)).isSome then
    (⟨400, none⟩, users)
  else
    (⟨201, some ⟨newId, email, "free"⟩⟩,
     users ++ [⟨newId, email, hashed, "free"⟩])

/-- `app.post('/api/auth/login')` (`src/unnamed/part_000` lines
261-286): unknown email → `401`; `bcrypt.compare(password,
user.password)` (the oracle `verify`) false → `401`; otherwise `200`
with the view. -/
def loginHandler (users : List User) (email password : String)
    (verify : String → String → Bool) : AuthResponse :=
  match users.find? (fun u => u.email == email) with
  | none => ⟨401, none⟩
  | some u =>
      if verify password u.password then ⟨200, some ⟨u.id, u.email, u.plan⟩⟩
      else ⟨401, none⟩

/-! ## Theorems -/

/-- C6: every record returned by the authenticated deployment listing
for user `uid` is owned by `uid`; no foreign-owned record is ever
included. -/
theorem listOnlyOwnRecords (db : List Deployment) (uid : Nat) (d : Deployment)
    (hd : d ∈ getDeployments db uid) : d.userId = uid := by
  unfold getDeployments at hd
  have h1 : d ∈ db.filter (fun x => x.userId == uid) := by
    have h2 := List.mem_of_mem_take hd
    rwa [List.mem_mergeSort] at h2
  simpa using (List.mem_filter.mp h1).2

/-- Witness for `listOnlyOwnRecords` at a concrete store. -/
theorem listOnlyOwnRecords_witness :
    newDeployment 1 1 "p" "demo.ntl.cloud" 0 ∈
      getDeployments [newDeployment 1 1 "p" "demo.ntl.cloud" 0] 1 ∧
    (newDeployment 1 1 "p" "demo.ntl.cloud" 0).userId = 1 := by
  refine ⟨?_, ?_⟩
  · simp [getDeployments, newDeployment]
  · exact listOnlyOwnRecords [newDeployment 1 1 "p" "demo.ntl.cloud" 0] 1 _
      (by simp [getDeployments, newDeployment])

/-- C9: the deployment listing returns at most 10 records, ordered by
creation time descending. -/
theorem listLimitedAndSorted (db : List Deployment) (uid : Nat) :
    (getDeployments db uid).length ≤ 10 ∧
    (getDeployments db uid).Pairwise (fun a b => b.createdAt ≤ a.createdAt) := by
  constructor
  · exact List.length_take_le 10 _
  · have hs := @List.sorted_mergeSort Deployment
      (fun a b : Deployment => decide (b.createdAt ≤ a.createdAt))
      (fun a b c hab hbc => by
        simp only [decide_eq_true_eq] at hab hbc ⊢
        exact Nat.le_trans hbc hab)
      (fun a b => by
        simp only [Bool.or_eq_true, decide_eq_true_eq]
        exact Nat.le_total b.createdAt a.createdAt)
      (db.filter (fun x => x.userId == uid))
    have ht := List.Pairwise.sublist
      (List.take_sublist 10
        ((db.filter (fun x => x.userId == uid)).mergeSort
          (fun a b => decide (b.createdAt ≤ a.createdAt)))) hs
    exact ht.imp (fun h => by simpa using h)

/-- C5: deleting a deployment id that does not exist or is owned by a
different user answers 404 and deletes nothing; a 200 success is
answered only when a record with that id owned by the caller existed. -/
theorem deleteNotFoundSemantics (db : List Deployment) (fsError : Bool)
    (callerId delId : Nat) :
    ((∀ d ∈ db, ¬(d.id = delId ∧ d.userId = callerId)) →
      deleteHandler db fsError callerId delId = (404, db)) ∧
    ((deleteHandler db fsError callerId delId).1 = 200 →
      ∃ d ∈ db, d.id = delId ∧ d.userId = callerId) := by
  constructor
  · intro hno
    have hfind : db.find? (fun d => d.id == delId && d.userId == callerId)
        = none := by
      rw [List.find?_eq_none]
      intro d hd
      simp only [Bool.and_eq_true, beq_iff_eq]
      exact hno d hd
    unfold deleteHandler
    rw [hfind]
  · intro h200
    unfold deleteHandler at h200
    cases hfind : db.find? (fun d => d.id == delId && d.userId == callerId) with
    | none => rw [hfind] at h200; simp at h200
    | some d =>
        have hmem := List.mem_of_find?_eq_some hfind
        have hprop := List.find?_some hfind
        simp only [Bool.and_eq_true, beq_iff_eq] at hprop
        exact ⟨d, hmem, hprop⟩

/-- Witness for `deleteNotFoundSemantics` at a concrete store: the
caller owns nothing, the delete answers 404 and leaves the store as it
was. -/
theorem deleteNotFoundSemantics_witness :
    deleteHandler [newDeployment 1 7 "p" "demo.ntl.cloud" 0] false 2 1 =
      (404, [newDeployment 1 7 "p" "demo.ntl.cloud" 0]) :=
  (deleteNotFoundSemantics [newDeployment 1 7 "p" "demo.ntl.cloud" 0]
    false 2 1).1 (by decide)

/-- C8 counterexample: a database error thrown while checking domain
availability for `POST /api/deploy` is answered as `400 Domain not
available`, not as a 500 server error — `checkDomainAvailability`
swallows the exception and reports the domain as taken. -/
theorem dbErrorReportedAs400 :
    (deployHandler [] true false 1 1 0 "p" "demo.example").httpStatus = 400 ∧
    (deployHandler [] true false 1 1 0 "p" "demo.example").httpStatus ≠ 500 := by
  decide

/-- C8 amended: a database failure during the availability check is
caught inside `checkDomainAvailability` and reported as the validation
error `400 Domain not available` (leaving the store untouched); a
database failure during the record save does surface as a 500. -/
theorem dbErrorTaxonomy (db : List Deployment) (saveError : Bool)
    (uid nid now : Nat) (pn dom : String) :
    (deployHandler db true saveError uid nid now pn dom).httpStatus = 400 ∧
    (deployHandler db true saveError uid nid now pn dom).db = db ∧
    (checkDomainAvailability db false dom = true →
      (deployHandler db false true uid nid now pn dom).httpStatus = 500) := by
  refine ⟨?_, ?_, ?_⟩
  · unfold deployHandler checkDomainAvailability
    simp
  · unfold deployHandler checkDomainAvailability
    simp
  · intro hav
    unfold deployHandler
    rw [hav]
    unfold saveNewDeployment
    simp

/-- Witness for `dbErrorTaxonomy` at a concrete input. -/
theorem dbErrorTaxonomy_witness :
    (deployHandler [] true false 1 1 0 "p" "demo.example").httpStatus = 400 ∧
    (deployHandler [] false true 1 1 0 "p" "demo.example").httpStatus = 500 :=
  ⟨(dbErrorTaxonomy [] false 1 1 0 "p" "demo.example").1,
   (dbErrorTaxonomy [] false 1 1 0 "p" "demo.example").2.2 (by decide)⟩


/-- C10: the auth routes answer with a user object holding exactly id,
email and plan. The register response is the same whatever bcrypt hash
is stored; any user object it returns is `⟨newId, email, "free"⟩`; and
when credential verification succeeds, the login response is determined
by the found user's id, email and plan alone — the stored hash never
appears in either response. -/
theorem authResponsesHashIndependent (users : List User)
    (email pw hash1 hash2 : String) (nid : Nat)
    (verify : String → String → Bool) :
    (registerHandler users email pw hash1 nid).1
      = (registerHandler users email pw hash2 nid).1 ∧
    (∀ v, (registerHandler users email pw hash1 nid).1.user = some v →
      v = ⟨nid, email, "free"⟩) ∧
    (∀ u, users.find? (fun x => x.email == email) = some u →
      verify pw u.password = true →
      loginHandler users email pw verify
        = ⟨200, some ⟨u.id, u.email, u.plan⟩⟩) := by
  refine ⟨?_, ?_, ?_⟩
  · unfold registerHandler
    split
    · rfl
    · split <;> rfl
  · intro v hv
    unfold registerHandler at hv
    split at hv
    · simp at hv
    · split at hv
      · simp at hv
      · simpa using hv.symm
  · intro u hfind hverify
    unfold loginHandler
    rw [hfind]
    simp [hverify]

/-- Witness for `authResponsesHashIndependent` at concrete stores and
a concrete verification oracle. -/
theorem authResponsesHashIndependent_witness :
    (registerHandler [] "b@x" "pw" "h1" 2).1
      = (registerHandler [] "b@x" "pw" "h2" 2).1 ∧
    (⟨2, "b@x", "free"⟩ : UserView) = ⟨2, "b@x", "free"⟩ ∧
    loginHandler [⟨1, "a@x", "h1", "free"⟩] "a@x" "pw" (fun _ _ => true)
      = ⟨200, some ⟨1, "a@x", "free"⟩⟩ :=
  ⟨(authResponsesHashIndependent [] "b@x" "pw" "h1" "h2" 2
      (fun _ _ => true)).1,
   (authResponsesHashIndependent [] "b@x" "pw" "h1" "h2" 2
      (fun _ _ => true)).2.1 ⟨2, "b@x", "free"⟩ (by decide),
   (authResponsesHashIndependent [⟨1, "a@x", "h1", "free"⟩] "a@x" "pw"
      "h1" "h2" 1 (fun _ _ => true)).2.2 ⟨1, "a@x", "h1", "free"⟩
      (by decide) rfl⟩

/-- C1 counterexample: in the simplified deploy route there is no
availability check — a creation request for the already-persisted
domain `demo.ntl.cloud` is refused by the unique index at save time and
surfaces as `500 Deployment failed`, not as a 400 rejection. -/
theorem duplicateDomainSimple500 :
    simpleDeployHandler [newDeployment 1 1 "p" "demo.ntl.cloud" 0]
        false 2 2 1 "q" "demo.ntl.cloud"
      = ⟨500, [newDeployment 1 1 "p" "demo.ntl.cloud" 0], none⟩ ∧
    (simpleDeployHandler [newDeployment 1 1 "p" "demo.ntl.cloud" 0]
        false 2 2 1 "q" "demo.ntl.cloud").httpStatus ≠ 400 := by
  decide

/-- C1 amended: a creation request for an already-used domain persists
nothing and leaves the store unchanged in both variants; the main
variant rejects it with 400 before the record is built, while the
simplified variant has no pre-check and answers 500 when the save is
refused by the unique domain index. -/
theorem duplicateDomainRejected (db : List Deployment) (r : Deployment)
    (dom : String) (hr : r ∈ db) (hdom : r.domain = dom)
    (dbFindError saveError : Bool) (uid nid now : Nat) (pn : String) :
    deployHandler db dbFindError saveError uid nid now pn dom
      = ⟨400, db, none⟩ ∧
    (simpleDeployHandler db saveError uid nid now pn dom).httpStatus = 500 ∧
    (simpleDeployHandler db saveError uid nid now pn dom).db = db := by
  have hany : db.any (fun x => x.domain == dom) = true := by
    rw [List.any_eq_true]
    exact ⟨r, hr, by simp [hdom]⟩
  have havail : ∀ e, checkDomainAvailability db e dom = false := by
    intro e
    unfold checkDomainAvailability
    cases e
    · simp only [Bool.false_eq_true, if_false]
      rw [Option.isNone_eq_false_iff, List.find?_isSome]
      exact ⟨r, hr, by simp [hdom]⟩
    · simp
  have hsave : saveNewDeployment db saveError
      (newDeployment nid uid pn dom now) = Except.error () := by
    unfold saveNewDeployment
    cases saveError
    · simp [newDeployment, hany]
    · simp
  refine ⟨?_, ?_, ?_⟩
  · unfold deployHandler
    rw [havail dbFindError]
    simp
  · unfold simpleDeployHandler
    rw [hsave]
  · unfold simpleDeployHandler
    rw [hsave]

/-- Witness for `duplicateDomainRejected` at a concrete store. -/
theorem duplicateDomainRejected_witness :
    deployHandler [newDeployment 1 1 "p" "demo.ntl.cloud" 0] false false
        2 2 1 "q" "demo.ntl.cloud"
      = ⟨400, [newDeployment 1 1 "p" "demo.ntl.cloud" 0], none⟩ ∧
    (simpleDeployHandler [newDeployment 1 1 "p" "demo.ntl.cloud" 0] false
        2 2 1 "q" "demo.ntl.cloud").httpStatus = 500 ∧
    (simpleDeployHandler [newDeployment 1 1 "p" "demo.ntl.cloud" 0] false
        2 2 1 "q" "demo.ntl.cloud").db
      = [newDeployment 1 1 "p" "demo.ntl.cloud" 0] :=
  duplicateDomainRejected [newDeployment 1 1 "p" "demo.ntl.cloud" 0]
    (newDeployment 1 1 "p" "demo.ntl.cloud" 0) "demo.ntl.cloud"
    (by decide) rfl false false 2 2 1 "q"

/-- A poll that returned a service object with a non-terminal status
(neither `live`/`ready` nor `failed`/`error`) without throwing. -/
def nonTerminalOk : PollResult → Bool
  | PollResult.ok s _ =>
      !(s == "live" || s == "ready" || s == "failed" || s == "error")
  | PollResult.exn => false

/-- C2 counterexample: a deployment whose polling attempts all throw
exhausts the attempt budget with no status write at all — the record
stays `deploying` forever, it is not set to `error`. -/
theorem pollExhaustionExceptionStalls :
    checkStatus 0 (List.replicate (maxAttempts + 1) PollResult.exn)
      = MonitorOutcome.stalled ∧
    checkStatus 0 (List.replicate (maxAttempts + 1) PollResult.exn)
      ≠ MonitorOutcome.wroteError ∧
    (monitorDeployment
        { newDeployment 1 1 "p" "demo.ntl.cloud" 0 with
            status := Status.deploying }
        (List.replicate (maxAttempts + 1) PollResult.exn)).status
      = Status.deploying := by
  decide

/-- `checkStatus` forces `error` once the attempt budget is exhausted,
provided every consumed poll is a non-throwing non-terminal response. -/
theorem checkStatus_nonterminal_exhausts (polls : List PollResult) :
    ∀ attempts, (∀ p ∈ polls, nonTerminalOk p = true) →
    attempts ≤ maxAttempts → maxAttempts + 1 - attempts ≤ polls.length →
    checkStatus attempts polls = MonitorOutcome.wroteError := by
  induction polls with
  | nil =>
      intro attempts _ hle hlen
      simp only [List.length_nil, Nat.le_zero] at hlen
      omega
  | cons p rest ih =>
      intro attempts hok hle hlen
      cases p with
      | exn => exact absurd (hok PollResult.exn (by simp)) (by simp [nonTerminalOk])
      | ok s u =>
          have hs := hok (PollResult.ok s u) (by simp)
          simp only [nonTerminalOk, Bool.not_eq_eq_eq_not, Bool.not_true,
            Bool.or_eq_false_iff] at hs
          unfold checkStatus
          rw [hs.1.1.1, hs.1.1.2, hs.1.2, hs.2]
          simp only [Bool.or_self, Bool.false_eq_true, if_false]
          by_cases hlt : attempts < maxAttempts
          · rw [if_pos hlt]
            exact ih (attempts + 1) (fun q hq => hok q (by simp [hq]))
              hlt (by simp at hlen; omega)
          · rw [if_neg hlt]

/-- C2 amended: exhausting the polling budget (more than `maxAttempts`
attempts) does force the record to `error` when the individual poll
attempts return non-terminal statuses without throwing; it is the
throwing attempts (see the counterexample) that can leave the record in
`deploying`. -/
theorem pollExhaustionForcesError (polls : List PollResult)
    (d : Deployment) (hok : ∀ p ∈ polls, nonTerminalOk p = true)
    (hlen : maxAttempts + 1 ≤ polls.length) :
    checkStatus 0 polls = MonitorOutcome.wroteError ∧
    (monitorDeployment d polls).status = Status.error := by
  have h := checkStatus_nonterminal_exhausts polls 0 hok
    (Nat.zero_le _) (by simpa using hlen)
  refine ⟨h, ?_⟩
  unfold monitorDeployment
  rw [h]

/-- Witness for `pollExhaustionForcesError`: 31 polls all answering the
non-terminal provider status `building`. -/
theorem pollExhaustionForcesError_witness :
    checkStatus 0 (List.replicate 31 (PollResult.ok "building" none))
      = MonitorOutcome.wroteError ∧
    (monitorDeployment
        { newDeployment 1 1 "p" "demo.ntl.cloud" 0 with
            status := Status.deploying }
        (List.replicate 31 (PollResult.ok "building" none))).status
      = Status.error :=
  pollExhaustionForcesError
    (List.replicate 31 (PollResult.ok "building" none))
    { newDeployment 1 1 "p" "demo.ntl.cloud" 0 with
        status := Status.deploying }
    (by decide) (by decide)

/-- The statuses `processDeployment` writes are always exactly
`deploying` possibly followed by one terminal status. -/
theorem processWrites_shape (d : Deployment) (pkg : Bool)
    (site : Except Unit RenderService) (addErr : Bool)
    (polls : List PollResult) :
    (processDeploymentT d pkg site addErr polls).2 = [Status.deploying] ∨
    (processDeploymentT d pkg site addErr polls).2
      = [Status.deploying, Status.live] ∨
    (processDeploymentT d pkg site addErr polls).2
      = [Status.deploying, Status.error] := by
  unfold processDeploymentT
  cases pkg with
  | true => simp
  | false =>
      cases site with
      | error e => simp
      | ok svc =>
          simp only [if_false, Bool.false_eq_true]
          split
          · simp
          · cases h : checkStatus 0 polls <;> simp

/-- C3: over every run, the statuses a record holds move strictly
forward through `building → deploying → {live | error}` — in both the
polling variant and the simplified fixed-delay variant — and a terminal
status (`live` or `error`) is never followed by a further status. -/
theorem statusForwardOnly (d : Deployment) (pkg : Bool)
    (site : Except Unit RenderService) (addErr : Bool)
    (polls : List PollResult) :
    (lifecycleTrace d pkg site addErr polls).Chain'
      (fun a b => a.rank < b.rank) ∧
    (∀ s ∈ (lifecycleTrace d pkg site addErr polls).dropLast,
      s ≠ Status.live ∧ s ≠ Status.error) ∧
    (simpleLifecycleTrace d).Chain' (fun a b => a.rank < b.rank) ∧
    (∀ s ∈ (simpleLifecycleTrace d).dropLast,
      s ≠ Status.live ∧ s ≠ Status.error) := by
  have hsimple : simpleLifecycleTrace d = [Status.building, Status.live] := rfl
  unfold lifecycleTrace
  rcases processWrites_shape d pkg site addErr polls with h | h | h <;>
    rw [h, hsimple] <;>
    exact ⟨by simp [Status.rank], by decide, by simp [Status.rank], by decide⟩

/-- Witness for `statusForwardOnly` at a concrete run that reaches
`live`. -/
theorem statusForwardOnly_witness :
    (lifecycleTrace (newDeployment 1 1 "p" "demo.ntl.cloud" 0) false
        (Except.ok ⟨"s", none⟩) false [PollResult.ok "live" none]).Chain'
      (fun a b => a.rank < b.rank) ∧
    (Status.deploying ≠ Status.live ∧ Status.deploying ≠ Status.error) :=
  ⟨(statusForwardOnly (newDeployment 1 1 "p" "demo.ntl.cloud" 0) false
      (Except.ok ⟨"s", none⟩) false [PollResult.ok "live" none]).1,
   (statusForwardOnly (newDeployment 1 1 "p" "demo.ntl.cloud" 0) false
      (Except.ok ⟨"s", none⟩) false [PollResult.ok "live" none]).2.1
      Status.deploying (by decide)⟩

/-- C4 counterexample: an exception during packaging does NOT surface
to the HTTP caller — `processDeployment` is fired without `await`, so
the route has already answered `200 Deployment started`; the background
`catch` only marks the persisted record `error` (it is indeed not
rolled back). -/
theorem packagingErrorNot500 :
    (deployFlow [] false false 1 1 0 "p" "demo.example" true
        (Except.ok ⟨"s", none⟩) false []).1 = 200 ∧
    (deployFlow [] false false 1 1 0 "p" "demo.example" true
        (Except.ok ⟨"s", none⟩) false []).1 ≠ 500 ∧
    (deployFlow [] false false 1 1 0 "p" "demo.example" true
        (Except.ok ⟨"s", none⟩) false []).2
      = [{ newDeployment 1 1 "p" "demo.example" 0 with
            status := Status.error }] := by
  decide

/-- C4 amended: an exception while persisting the record inside the
route surfaces as a generic 500 with nothing persisted; an exception
during packaging, and likewise an exception raised by the
external-provider call (`createStaticSite` answering `Except.error`
after packaging succeeded), happens in the fire-and-forget background
task after the caller already received 200 — it is caught there and
marks the record `error`, and the persisted `building` record is never
deleted in either case. -/
theorem deployExceptionHandling (db : List Deployment) (uid nid now : Nat)
    (pn dom : String) (pkg : Bool) (site : Except Unit RenderService)
    (addErr : Bool) (polls : List PollResult)
    (havail : checkDomainAvailability db false dom = true) :
    deployFlow db false true uid nid now pn dom pkg site addErr polls
      = (500, db) ∧
    (deployFlow db false false uid nid now pn dom true site addErr polls).1
      = 200 ∧
    { newDeployment nid uid pn dom now with status := Status.error }
      ∈ (deployFlow db false false uid nid now pn dom true site
          addErr polls).2 ∧
    (deployFlow db false false uid nid now pn dom false (Except.error ())
        addErr polls).1 = 200 ∧
    { newDeployment nid uid pn dom now with status := Status.error }
      ∈ (deployFlow db false false uid nid now pn dom false (Except.error ())
          addErr polls).2 := by
  have hnone : db.find? (fun x => x.domain == dom) = none := by
    unfold checkDomainAvailability at havail
    simpa using havail
  have hany : db.any
      (fun r => r.domain == (newDeployment nid uid pn dom now).domain)
      = false := by
    simpa [newDeployment] using
      List.any_eq_false.mpr (List.find?_eq_none.mp hnone)
  refine ⟨?_, ?_, ?_, ?_, ?_⟩
  · unfold deployFlow deployHandler
    rw [havail]
    simp [saveNewDeployment]
  · unfold deployFlow deployHandler
    rw [havail]
    simp [saveNewDeployment, hany]
  · unfold deployFlow deployHandler
    rw [havail]
    simp only [saveNewDeployment, Bool.false_eq_true, if_false, hany, if_true,
      List.map_append, List.map_cons, List.map_nil]
    refine List.mem_append_right _ ?_
    simp [processDeployment, processDeploymentT]
  · unfold deployFlow deployHandler
    rw [havail]
    simp [saveNewDeployment, hany]
  · unfold deployFlow deployHandler
    rw [havail]
    simp only [saveNewDeployment, Bool.false_eq_true, if_false, hany, if_true,
      List.map_append, List.map_cons, List.map_nil]
    refine List.mem_append_right _ ?_
    simp [processDeployment, processDeploymentT]

/-- Witness for `deployExceptionHandling` at a concrete store,
exercising the save-failure, packaging-failure and
external-provider-call-failure cases. -/
theorem deployExceptionHandling_witness :
    deployFlow [] false true 1 1 0 "p" "demo.example" false
        (Except.ok ⟨"s", none⟩) false [] = (500, []) ∧
    (deployFlow [] false false 1 1 0 "p" "demo.example" true
        (Except.ok ⟨"s", none⟩) false []).1 = 200 ∧
    { newDeployment 1 1 "p" "demo.example" 0 with status := Status.error }
      ∈ (deployFlow [] false false 1 1 0 "p" "demo.example" true
          (Except.ok ⟨"s", none⟩) false []).2 ∧
    (deployFlow [] false false 1 1 0 "p" "demo.example" false
        (Except.error ()) false []).1 = 200 ∧
    { newDeployment 1 1 "p" "demo.example" 0 with status := Status.error }
      ∈ (deployFlow [] false false 1 1 0 "p" "demo.example" false
          (Except.error ()) false []).2 :=
  deployExceptionHandling [] 1 1 0 "p" "demo.example" false
    (Except.ok ⟨"s", none⟩) false [] (by decide)

/-- C7 counterexample: in the polling variant a deployment with domain
`demo.ntl.cloud` that completes successfully stores the
provider-reported service URL, not `https://demo.ntl.cloud`. -/
theorem pollingUrlNotDomain :
    (monitorDeployment
        { newDeployment 1 1 "p" "demo.ntl.cloud" 0 with
            status := Status.deploying }
        [PollResult.ok "live" (some "https://foo.onrender.com")]).status
      = Status.live ∧
    (monitorDeployment
        { newDeployment 1 1 "p" "demo.ntl.cloud" 0 with
            status := Status.deploying }
        [PollResult.ok "live" (some "https://foo.onrender.com")]).deploymentUrl
      = some "https://foo.onrender.com" ∧
    (monitorDeployment
        { newDeployment 1 1 "p" "demo.ntl.cloud" 0 with
            status := Status.deploying }
        [PollResult.ok "live" (some "https://foo.onrender.com")]).deploymentUrl
      ≠ some ("https://" ++ "demo.ntl.cloud") := by
  decide

/-- C7 amended: a created record starts in `building`; the simplified
fixed-delay path completes with `live` and URL `https://` ++ domain;
the polling path completes with `live` but stores the provider-reported
URL (which need not be `https://` ++ domain, see the counterexample). -/
theorem deployLifecycleUrl (db : List Deployment)
    (dbFindError saveError : Bool) (uid nid now : Nat) (pn dom : String)
    (c d : Deployment) (u : Option String) (polls : List PollResult)
    (hc : (deployHandler db dbFindError saveError uid nid now pn dom).created
      = some c)
    (hpoll : checkStatus 0 polls = MonitorOutcome.wroteLive u) :
    c.status = Status.building ∧
    (simulateDeployment c).status = Status.live ∧
    (simulateDeployment c).deploymentUrl = some ("https://" ++ c.domain) ∧
    (monitorDeployment d polls).status = Status.live ∧
    (monitorDeployment d polls).deploymentUrl = u := by
  have hcb : c = newDeployment nid uid pn dom now := by
    unfold deployHandler at hc
    split at hc
    · split at hc
      · simp at hc
      · simpa using hc.symm
    · simp at hc
  refine ⟨by rw [hcb]; rfl, rfl, rfl, ?_, ?_⟩ <;>
    (unfold monitorDeployment; rw [hpoll])

/-- Witness for `deployLifecycleUrl` at a concrete request and poll
sequence. -/
theorem deployLifecycleUrl_witness :
    (newDeployment 1 1 "p" "demo.ntl.cloud" 0).status = Status.building ∧
    (simulateDeployment (newDeployment 1 1 "p" "demo.ntl.cloud" 0)).status
      = Status.live ∧
    (simulateDeployment (newDeployment 1 1 "p" "demo.ntl.cloud" 0)).deploymentUrl
      = some ("https://" ++ (newDeployment 1 1 "p" "demo.ntl.cloud" 0).domain) ∧
    (monitorDeployment (newDeployment 2 1 "q" "other.example" 0)
        [PollResult.ok "live" (some "https://x.onrender.com")]).status
      = Status.live ∧
    (monitorDeployment (newDeployment 2 1 "q" "other.example" 0)
        [PollResult.ok "live" (some "https://x.onrender.com")]).deploymentUrl
      = some "https://x.onrender.com" :=
  deployLifecycleUrl [] false false 1 1 0 "p" "demo.ntl.cloud"
    (newDeployment 1 1 "p" "demo.ntl.cloud" 0)
    (newDeployment 2 1 "q" "other.example" 0)
    (some "https://x.onrender.com")
    [PollResult.ok "live" (some "https://x.onrender.com")]
    (by decide) (by decide)
